import Mathlib

/-!
# Verification of the ATS9371 acquisition pipeline

A shallow embedding, in Lean 4, of the two source files of the
`ats9371_for_tomography` repository:

* `raw_acq_ctrl.py` — the raw-acquisition controller: the voltage
  conversion kernel `signal_to_volt`, the two buffer-demultiplexing
  strategies (`process_buffer`, the numba kernel, and
  `numpy_get_alldata_from_buffer_in_volt`, the numpy path), and the
  acquisition-session callbacks (`pre_start_capture`, `handle_buffer`).
* `ats9371.py` — the register feature gate for trigger holdoff
  (`_get_trigger_holdoff`, `_set_trigger_holdoff`), gated on a minimum
  firmware version.

Modelling conventions:

* Python / numpy floating-point values are modelled as rationals (`ℚ`);
  both conversion strategies apply the same two arithmetic operations in
  the same order, so exact arithmetic is a faithful common model for their
  comparison and for the conversion formula.
* numpy arrays are modelled as `List ℚ` (1-D) and `List (List ℚ)`
  (2-D, row major).
* Python exceptions are modelled with `Except` or `Option`: an error value
  is a raised exception, a success value a normal return.
* The hardware register interface (`_read_register` / `_write_register`,
  inherited from the excluded qcodes base class) is modelled by passing the
  value read from register 58 as an argument and returning the value written
  to register 58 in `Except.ok`; `Except.error` means no write happened.
* `packaging.version.parse` is an external library call.  It is modelled for
  dotted-numeric version strings (the shape that the spec FirmwareVersion data
  model prescribes): a string of dot-separated decimal components parses to
  the list of component values, compared componentwise with zero padding;
  any other string raises (`packaging` ≥ 22 raises `InvalidVersion` for
  strings that are not valid PEP 440 versions).
-/

namespace ATS9371

/-! ## Voltage conversion kernel (`raw_acq_ctrl.signal_to_volt`) -/

/-- Source: `signal_to_volt(signal)` is `return (signal - 32760) / 81900.0`. -/
def signal_to_volt (signal : ℚ) : ℚ :=
  (signal - 32760) / 81900

/-! ## Buffer demultiplexer, data-parallel strategy
(`raw_acq_ctrl.process_buffer`, the numba kernel)

The numba kernel writes `cha_A[r, s]` and `cha_B[r, s]` for every
`r < n_records`, `s < n_samples`, reading `buffer[(r*n_samples+s)*2]`
and `buffer[(r*n_samples+s)*2 + 1]`.  Records are independent
(`numba.prange` partitions the work by record index), so the result is
the 2-D array built pointwise below.  Reads past the end of the buffer
are modelled by `List.getD _ 0` (they do not occur when the buffer has
the session length `n_samples * n_records * 2`). -/

/-- The numba kernel `process_buffer(buffer, cha_A, cha_B, n_records, n_samples)`:
`cha_A[r, s] = (buffer[(r*n_samples+s)*2] - 32760) / 81900.0`,
`cha_B[r, s] = (buffer[(r*n_samples+s)*2+1] - 32760) / 81900.0`.
Returns the pair (channel A, channel B) of `n_records × n_samples` arrays. -/
def process_buffer (buffer : List ℚ) (n_records n_samples : Nat) :
    List (List ℚ) × List (List ℚ) :=
  ((List.range n_records).map fun r =>
      (List.range n_samples).map fun s =>
        (buffer.getD ((r * n_samples + s) * 2) 0 - 32760) / 81900,
   (List.range n_records).map fun r =>
      (List.range n_samples).map fun s =>
        (buffer.getD ((r * n_samples + s) * 2 + 1) 0 - 32760) / 81900)

/-! ## Buffer demultiplexer, sequential/vectorized strategy
(`raw_acq_ctrl.RawAcquisitionController.numpy_get_alldata_from_buffer_in_volt`)

The numpy path computes
`reshaped = self.buffer.reshape(self.records_per_buffer, -1, 2)`;
the middle dimension is *inferred* from the buffer length
(`len / (records_per_buffer * 2)`), and the reshape raises `ValueError`
if `records_per_buffer * 2` is zero or does not divide the length.
`reshaped[:, :, 0]` is the channel-A view: its `[r, s]` element is the
flat element `(r * inferred + s) * 2`; channel B is the same with `+ 1`.
`np.subtract(view, 32760, out=self.cha_A_buffer)` then raises if the view
shape `(records_per_buffer, inferred)` differs from the persistent
channel-buffer shape `(records_per_buffer, samples_per_record)`, i.e. if
`inferred ≠ samples_per_record`; otherwise it stores `view - 32760`
into the channel buffer, which is then divided in place by `81900.0`.
`none` models the raised `ValueError`. -/

/-- The conversion computed by `numpy_get_alldata_from_buffer_in_volt` on a
buffer of the given geometry: `none` when numpy raises (reshape failure or
output-shape mismatch), otherwise the pair of converted channel arrays that
the method stores into `cha_A_buffer` / `cha_B_buffer`. -/
def numpy_convert (buffer : List ℚ) (records_per_buffer samples_per_record : Nat) :
    Option (List (List ℚ) × List (List ℚ)) :=
  if records_per_buffer * 2 = 0 then none
  else if buffer.length % (records_per_buffer * 2) ≠ 0 then none
  else
    let inferred := buffer.length / (records_per_buffer * 2)
    if inferred ≠ samples_per_record then none
    else some
      ((List.range records_per_buffer).map fun r =>
          (List.range inferred).map fun s =>
            (buffer.getD ((r * inferred + s) * 2) 0 - 32760) / 81900,
       (List.range records_per_buffer).map fun r =>
          (List.range inferred).map fun s =>
            (buffer.getD ((r * inferred + s) * 2 + 1) 0 - 32760) / 81900)

/-! ## Acquisition session state (`raw_acq_ctrl.RawAcquisitionController`) -/

/-- Source: `self.number_of_channels = 2`, fixed in `__init__`. -/
def number_of_channels : Nat := 2

/-- The mutable state of a `RawAcquisitionController` relevant to the
acquisition pipeline: the geometry read at `pre_start_capture`, the raw
accumulation buffer (`self.buffer`, `None` before the first
`pre_start_capture`), and the two persistent channel voltage buffers. -/
structure AcqState where
  samples_per_record : Nat
  records_per_buffer : Nat
  buffers_per_acquisition : Nat
  buffer : Option (List ℚ)
  cha_A_buffer : List (List ℚ)
  cha_B_buffer : List (List ℚ)
deriving DecidableEq

/-- Source: `pre_start_capture(self)` reads the geometry from the alazar driver
(passed here as arguments) and allocates the zero-filled raw buffer of
length `samples_per_record * records_per_buffer * number_of_channels`
and the two zero-filled `records × samples` channel buffers. -/
def pre_start_capture
    (samples_per_record records_per_buffer buffers_per_acquisition : Nat) :
    AcqState :=
  { samples_per_record := samples_per_record
    records_per_buffer := records_per_buffer
    buffers_per_acquisition := buffers_per_acquisition
    buffer := some (List.replicate
      (samples_per_record * records_per_buffer * number_of_channels) 0)
    cha_A_buffer := List.replicate records_per_buffer
      (List.replicate samples_per_record 0)
    cha_B_buffer := List.replicate records_per_buffer
      (List.replicate samples_per_record 0) }

set_option linter.unusedVariables false in
/-- Source: `handle_buffer(self, buffer, buffer_number=None)` runs
`assert self.buffer is not None` (modelled by returning `none`, the failed
assertion), then `self.buffer += buffer`, an elementwise in-place addition.
The slot index `buffer_number` is accepted but never used
(and the linter warning about that is therefore silenced). -/
def handle_buffer (st : AcqState) (delivered : List ℚ)
    (buffer_number : Option Nat) : Option AcqState :=
  match st.buffer with
  | none => none
  | some b => some { st with buffer := some (b.zipWith (· + ·) delivered) }

/-- The value returned by the two get-data methods: with `copy=True` an
independent snapshot of the two channel arrays, with `copy=False` a view
aliasing `self.cha_A_buffer` / `self.cha_B_buffer`. -/
inductive GetResult where
  | copied (cha_A cha_B : List (List ℚ)) : GetResult
  | view : GetResult
deriving DecidableEq

/-- Dereference a `GetResult` against the current session state: a copy
reads its own snapshot, a view reads the persistent channel
buffers as they are *now*. -/
def readResult (st : AcqState) : GetResult → List (List ℚ) × List (List ℚ)
  | .copied a b => (a, b)
  | .view => (st.cha_A_buffer, st.cha_B_buffer)

/-- Source: `numpy_get_alldata_from_buffer_in_volt(self, copy=True)` converts
`self.buffer` in place into `self.cha_A_buffer` / `self.cha_B_buffer`
(see `numpy_convert`), then returns either copies of the two channel
buffers or the buffers themselves.  `none` models a raised exception
(`self.buffer` is `None`, or numpy raises on a shape mismatch). -/
def numpy_get_alldata_from_buffer_in_volt (st : AcqState) (copy : Bool) :
    Option (AcqState × GetResult) :=
  match st.buffer with
  | none => none
  | some b =>
    match numpy_convert b st.records_per_buffer st.samples_per_record with
    | none => none
    | some p =>
      some ({ st with cha_A_buffer := p.1, cha_B_buffer := p.2 },
            if copy then .copied p.1 p.2 else .view)

/-- Source: `numba_get_alldata_from_buffer_in_volt(self, copy=True)` runs
`process_buffer(self.buffer, self.cha_A_buffer, self.cha_B_buffer,
self.records_per_buffer, self.samples_per_record)` (which overwrites the
two channel buffers), then returns either copies of the two channel
buffers or the buffers themselves.  `none` models a raised exception
(`self.buffer` is `None`). -/
def numba_get_alldata_from_buffer_in_volt (st : AcqState) (copy : Bool) :
    Option (AcqState × GetResult) :=
  match st.buffer with
  | none => none
  | some b =>
    let p := process_buffer b st.records_per_buffer st.samples_per_record
    some ({ st with cha_A_buffer := p.1, cha_B_buffer := p.2 },
          if copy then .copied p.1 p.2 else .view)

/-! ## Register feature gate (`ats9371.AlazarTechATS9371`)

`_get_trigger_holdoff` / `_set_trigger_holdoff` work against register 58.
The firmware identity `self.get_idn()["firmware"]` is modelled as
`Option String`: `none` for an absent / non-string value (the code tests
`isinstance(fwversion, str)`), `some s` for the string `s`. -/

/-- Python exceptions raised by the trigger-holdoff operations. -/
inductive PyError where
  /-- Raised by `packaging.version.parse` (as `InvalidVersion`) on a string that is
  not a valid version. -/
  | invalidVersion : PyError
  /-- The `RuntimeError` raised by `_set_trigger_holdoff` on unsupported
  firmware; it carries the required minimum version and the actual
  firmware value interpolated into its message. -/
  | unsupportedFirmware (required : String) (actual : Option String) : PyError
deriving DecidableEq

deriving instance DecidableEq for Except

/-- Source: `_trigger_holdoff_min_fw_version = "30.04"`. -/
def trigger_holdoff_min_fw_version : String := "30.04"

/-- Split a character list at every occurrence of `sep`
(as Python `str.split`, used here only to model version parsing). -/
def splitOnChar (sep : Char) : List Char → List (List Char)
  | [] => [[]]
  | c :: cs =>
    let rest := splitOnChar sep cs
    if c = sep then [] :: rest
    else
      match rest with
      | [] => [[c]]
      | r :: rs => (c :: r) :: rs

/-- Decimal value of a digit string. -/
def digitsToNat (cs : List Char) : Nat :=
  cs.foldl (fun acc c => 10 * acc + (c.toNat - 48)) 0

/-- One dotted component: a nonempty run of decimal digits, else invalid. -/
def parseComponent (cs : List Char) : Option Nat :=
  if cs ≠ [] ∧ cs.all Char.isDigit then some (digitsToNat cs) else none

/-- Model of `packaging.version.parse` for dotted-numeric strings: the
release component list when every dot-separated component is a nonempty
decimal numeral, `none` (the raised `InvalidVersion`) otherwise. -/
def parseVersion (s : String) : Option (List Nat) :=
  let comps := (splitOnChar '.' s.data).map parseComponent
  if comps.all Option.isSome then some (comps.map (fun o => o.getD 0)) else none

/-- PEP 440 release-tuple ordering: componentwise, the shorter tuple padded
with zeros (`Version("30.4") == Version("30.04") == Version("30.4.0")`). -/
def verLt : List Nat → List Nat → Bool
  | [], ys => ys.any (fun y => decide (0 < y))
  | x :: xs, [] => (x == 0) && verLt xs []
  | x :: xs, y :: ys => decide (x < y) || ((x == y) && verLt xs ys)

/-- The guard shared by both trigger-holdoff operations:
`not isinstance(fwversion, str) or version.parse(fwversion) <
version.parse(self._trigger_holdoff_min_fw_version)`.
`ok true` means the guard is taken (absent or below-minimum firmware),
`ok false` means supported firmware, `error` a raised parse exception. -/
def fwParseBelow (firmware : Option String) (minVersion : String) :
    Except PyError Bool :=
  match firmware with
  | none => .ok true
  | some s =>
    match parseVersion s, parseVersion minVersion with
    | some a, some b => .ok (verLt a b)
    | _, _ => .error .invalidVersion

/-- Python `bin(n)` for a nonnegative `n`: the characters `0b` followed by
the binary digits of `n` with no leading zeros (`bin(0) = "0b0"`). -/
def pyBin (n : Nat) : List Char :=
  '0' :: 'b' :: Nat.toDigits 2 n

/-- Python string indexing from the end, `s[-k]`, yielding the one-character
string at position `len(s) - k`.  An out-of-range index raises in Python;
that case cannot occur at the one use site (where the string has length at
least 29) and is modelled by the empty string. -/
def pyIndexFromEnd (s : List Char) (k : Nat) : List Char :=
  if k ≤ s.length ∧ 0 < k then [s.getD (s.length - k) ' '] else []

/-- Python `bool` of a string: `True` exactly for a nonempty string
(in particular `bool("0") = bool("1") = True`). -/
def pyTruthy (t : List Char) : Bool :=
  !t.isEmpty

/-- Source: `_get_trigger_holdoff(self)`.  Here `firmware` is
`self.get_idn()["firmware"]`; `regValue` is the 32-bit value that
`self._read_register(58)` would return.  Source, line by line: the
firmware guard returns `False` early; `bitmask = bin(output)[2:]`;
`if len(bitmask) < 27: return False`; `return bool(bin(output)[-27])`. -/
def _get_trigger_holdoff (firmware : Option String) (regValue : Nat) :
    Except PyError Bool :=
  match fwParseBelow firmware trigger_holdoff_min_fw_version with
  | .error e => .error e
  | .ok true => .ok false
  | .ok false =>
    let bitmask := (pyBin regValue).drop 2
    if bitmask.length < 27 then .ok false
    else .ok (pyTruthy (pyIndexFromEnd (pyBin regValue) 27))

/-- Source: `~np.uint32(x)`, bitwise complement in 32-bit unsigned arithmetic. -/
def np_uint32_not (x : Nat) : Nat :=
  2 ^ 32 - 1 - x % 2 ^ 32

/-- Source: `_set_trigger_holdoff(self, value)`.  Here `firmware` is
`self.get_idn()["firmware"]`; `currentValue` the value read from register
58.  On unsupported firmware it raises the `RuntimeError` carrying the
required minimum version and the actual firmware value; otherwise it
computes `current_value | np.uint32(1 << 26)` (enable) or
`current_value & ~np.uint32(1 << 26)` (disable) and writes it back:
`Except.ok w` means `self._write_register(58, w)` is executed,
`Except.error` means no write happens. -/
def _set_trigger_holdoff (firmware : Option String) (value : Bool)
    (currentValue : Nat) : Except PyError Nat :=
  match fwParseBelow firmware trigger_holdoff_min_fw_version with
  | .error e => .error e
  | .ok true => .error (.unsupportedFirmware trigger_holdoff_min_fw_version firmware)
  | .ok false =>
    if value then
      .ok (currentValue ||| (1 <<< 26))
    else
      .ok (currentValue &&& np_uint32_not (1 <<< 26))

/-! ## The end-to-end scenario buffer of the spec

Geometry `samplesPerRecord = 256`, `recordsPerBuffer = 2`, raw buffer
`[32760, 32760, 32840, 32680, ...]` repeated: 256 copies of the four-sample
pattern give the `256 * 2 * 2 = 1024` raw elements, and every record starts
with the pattern. -/

/-- The raw buffer of the end-to-end scenario in the spec. -/
def scenario_buffer : List ℚ :=
  (List.replicate 256 ([32760, 32760, 32840, 32680] : List ℚ)).flatten


/-! # Helper lemmas -/

/-- Elementwise adding a list to an equally long all-zero list returns the
list itself: the first delivery into the zero-filled raw buffer stores
exactly the delivered samples. -/
theorem zipWith_add_replicate_zero (d : List ℚ) :
    List.zipWith (· + ·) (List.replicate d.length (0 : ℚ)) d = d := by
  induction d with
  | nil => rfl
  | cons x xs ih => simp [List.replicate_succ, ih]

/-- Elementwise adding a list to itself doubles every element. -/
theorem zipWith_add_self (d : List ℚ) :
    List.zipWith (· + ·) d d = d.map (fun x => 2 * x) := by
  induction d with
  | nil => rfl
  | cons x xs ih => simp [ih, two_mul]

/-- On a buffer of exactly the session geometry length
(`samples * records * 2`, with at least one record), the numpy path does not
raise and its inferred middle dimension equals `samples`, so it computes
exactly the arrays of the numba kernel `process_buffer`. -/
theorem numpy_convert_some (buffer : List ℚ) (records samples : Nat)
    (hrec : 0 < records) (hlen : buffer.length = samples * records * 2) :
    numpy_convert buffer records samples
      = some (process_buffer buffer records samples) := by
  have h2 : ¬ records * 2 = 0 := by omega
  have hlen2 : buffer.length = samples * (records * 2) := by
    rw [hlen, Nat.mul_assoc]
  have hmod : buffer.length % (records * 2) = 0 := by
    rw [hlen2]; exact Nat.mul_mod_left _ _
  have hdiv : buffer.length / (records * 2) = samples := by
    rw [hlen2]; exact Nat.mul_div_cancel _ (by omega)
  simp [numpy_convert, process_buffer, h2, hmod, hdiv]

/-- The `[r][s]` entry of each channel array produced by `process_buffer`,
for in-range indices and arbitrary out-of-range defaults. -/
theorem process_buffer_entry (buffer : List ℚ) (nr ns r s : Nat)
    (hr : r < nr) (hs : s < ns) (dr : List ℚ) (dv : ℚ) :
    (((process_buffer buffer nr ns).1.getD r dr).getD s dv
      = (buffer.getD ((r * ns + s) * 2) 0 - 32760) / 81900) ∧
    (((process_buffer buffer nr ns).2.getD r dr).getD s dv
      = (buffer.getD ((r * ns + s) * 2 + 1) 0 - 32760) / 81900) := by
  unfold process_buffer
  constructor <;>
    simp [List.getD_eq_getElem?_getD, List.getElem?_map,
      List.getElem?_range hr, List.getElem?_range hs]

/-! # Claim theorems -/

/-- Claim C4: for every raw code `c`, `signal_to_volt` returns exactly
`(c - 32760) / 81900.0`; it is a pure total function (a Lean function of
type `ℚ → ℚ`), and it agrees with the reference formula of the docstring,
`(signal - 32760) / 16 * 0.8 / (2**12 - 1)`. -/
theorem signal_to_volt_spec (c : ℚ) :
    signal_to_volt c = (c - 32760) / 81900 ∧
    signal_to_volt c = (c - 32760) / 16 * (8 / 10) / (2 ^ 12 - 1) := by
  refine ⟨rfl, ?_⟩
  unfold signal_to_volt
  ring

/-- Claim C2: for a session state whose raw buffer has exactly the geometry
length `samples_per_record * records_per_buffer * 2` (with at least one
record), the sequential/vectorized strategy
`numpy_get_alldata_from_buffer_in_volt` and the data-parallel strategy
`numba_get_alldata_from_buffer_in_volt` (which runs `process_buffer`)
return identical results — same updated channel buffers, same returned
arrays — and the numpy conversion computes exactly the `process_buffer`
arrays. -/
theorem numpy_numba_equivalent (st : AcqState) (b : List ℚ) (copy : Bool)
    (hb : st.buffer = some b) (hrec : 0 < st.records_per_buffer)
    (hlen : b.length = st.samples_per_record * st.records_per_buffer * 2) :
    numpy_get_alldata_from_buffer_in_volt st copy
      = numba_get_alldata_from_buffer_in_volt st copy ∧
    numpy_convert b st.records_per_buffer st.samples_per_record
      = some (process_buffer b st.records_per_buffer st.samples_per_record) := by
  have hc := numpy_convert_some b st.records_per_buffer st.samples_per_record hrec hlen
  refine ⟨?_, hc⟩
  unfold numpy_get_alldata_from_buffer_in_volt numba_get_alldata_from_buffer_in_volt
  simp [hb, hc]

/-- Witness for C2: geometry with a prime record count (17 records,
1 sample per record) and the 34-element zero buffer. -/
theorem numpy_numba_equivalent_witness :
    numpy_get_alldata_from_buffer_in_volt (pre_start_capture 1 17 1) true
      = numba_get_alldata_from_buffer_in_volt (pre_start_capture 1 17 1) true ∧
    numpy_convert (List.replicate 34 0) 17 1
      = some (process_buffer (List.replicate 34 0) 17 1) :=
  numpy_numba_equivalent (pre_start_capture 1 17 1) (List.replicate 34 0) true
    rfl (by decide) (by decide)

/-- Claim C10: `handle_buffer` ignores the ring-buffer slot index entirely:
for every state and delivered buffer, the result is the same for every
value of `buffer_number` (including `none`, the default `None`). -/
theorem handle_buffer_slot_index_irrelevant (st : AcqState) (d : List ℚ)
    (n1 n2 : Option Nat) :
    handle_buffer st d n1 = handle_buffer st d n2 := rfl

/-- Claim C5: `handle_buffer` accumulates elementwise into the raw buffer
(`RawBuffer += delivered`) rather than overwriting, and consequently
delivering the same buffer `d` twice into the zero-filled buffer allocated
by `pre_start_capture` leaves the raw buffer elementwise equal to twice the
single-delivery content. -/
theorem handle_buffer_accumulates (st : AcqState) (b d : List ℚ) (n : Option Nat)
    (hb : st.buffer = some b)
    (samples records buffers : Nat)
    (hd : d.length = samples * records * number_of_channels) :
    handle_buffer st d n
      = some { st with buffer := some (List.zipWith (· + ·) b d) } ∧
    ∃ st1 st2,
      handle_buffer (pre_start_capture samples records buffers) d none = some st1 ∧
      handle_buffer st1 d none = some st2 ∧
      st1.buffer = some d ∧
      st2.buffer = some (d.map (fun x => 2 * x)) := by
  have h1 : List.zipWith (· + ·)
      (List.replicate (samples * records * number_of_channels) (0 : ℚ)) d = d := by
    rw [← hd]; exact zipWith_add_replicate_zero d
  constructor
  · unfold handle_buffer; rw [hb]
  · refine ⟨_, _, rfl, rfl, ?_, ?_⟩
    · show some (List.zipWith (· + ·)
        (List.replicate (samples * records * number_of_channels) (0 : ℚ)) d) = some d
      rw [h1]
    · show some (List.zipWith (· + ·) (List.zipWith (· + ·)
        (List.replicate (samples * records * number_of_channels) (0 : ℚ)) d) d)
        = some (d.map (fun x => 2 * x))
      rw [h1, zipWith_add_self]

/-- Witness for C5: a one-record, one-sample session and the delivered
buffer `[3, 5]`. -/
theorem handle_buffer_accumulates_witness :
    handle_buffer (pre_start_capture 1 1 1) [3, 5] none
      = some { pre_start_capture 1 1 1 with
               buffer := some (List.zipWith (· + ·) (List.replicate 2 (0 : ℚ)) [3, 5]) } ∧
    ∃ st1 st2,
      handle_buffer (pre_start_capture 1 1 1) [3, 5] none = some st1 ∧
      handle_buffer st1 [3, 5] none = some st2 ∧
      st1.buffer = some [3, 5] ∧
      st2.buffer = some (([3, 5] : List ℚ).map (fun x => 2 * x)) :=
  handle_buffer_accumulates (pre_start_capture 1 1 1) (List.replicate 2 0) [3, 5]
    none rfl 1 1 1 (by decide)

/-- The first four raw elements of the scenario buffer are the pattern
`[32760, 32760, 32840, 32680]`. -/
theorem scenario_buffer_head :
    scenario_buffer = 32760 :: 32760 :: 32840 :: 32680 ::
      (List.replicate 255 ([32760, 32760, 32840, 32680] : List ℚ)).flatten := by
  rw [scenario_buffer, show (256 : Nat) = 255 + 1 from rfl, List.replicate_succ,
    List.flatten_cons]
  rfl

/-- Counterexample to C3. In the end-to-end scenario of the spec
(`samplesPerRecord = 256`, `recordsPerBuffer = 2`, raw buffer
`[32760, 32760, 32840, 32680, ...]`), channel B record 0 sample 0 is the
conversion of raw element 1, which is `32760`, the offset code, so its
value is exactly `0` — not approximately `-0.000977` (`= -80/81900`, a
value that is not `0`) as the claim states.  (The `-80/81900` value is at
channel B record 0 sample **1**, the conversion of raw element 3.) -/
theorem scenario_chB_sample0_not_as_claimed :
    ((process_buffer scenario_buffer 2 256).2.getD 0 []).getD 0 1 = 0 ∧
    (0 : ℚ) ≠ -80 / 81900 := by
  constructor
  · rw [(process_buffer_entry scenario_buffer 2 256 0 0 (by decide) (by decide) [] 1).2,
      scenario_buffer_head]
    norm_num
  · norm_num

/-- Claim C3, amended: for every raw buffer and geometry, the conversion
places `voltage(raw[(r*samplesPerRecord + s)*2])` at channel A `[r][s]` and
`voltage(raw[(r*samplesPerRecord + s)*2 + 1])` at channel B `[r][s]`; in the
end-to-end scenario (`samplesPerRecord = 256`, `recordsPerBuffer = 2`, raw
buffer `[32760, 32760, 32840, 32680, ...]`), channel A record 0 sample 0 is
exactly `0`, channel B record 0 sample **1** is `-80/81900 ≈ -0.000977`,
and channel A record 0 sample 1 is `80/81900 ≈ 0.000977`. -/
theorem process_buffer_placement :
    (∀ (buffer : List ℚ) (nr ns r s : Nat), r < nr → s < ns →
      ((process_buffer buffer nr ns).1.getD r []).getD s 0
        = signal_to_volt (buffer.getD ((r * ns + s) * 2) 0) ∧
      ((process_buffer buffer nr ns).2.getD r []).getD s 0
        = signal_to_volt (buffer.getD ((r * ns + s) * 2 + 1) 0)) ∧
    ((process_buffer scenario_buffer 2 256).1.getD 0 []).getD 0 1 = 0 ∧
    ((process_buffer scenario_buffer 2 256).2.getD 0 []).getD 1 1 = -80 / 81900 ∧
    ((process_buffer scenario_buffer 2 256).1.getD 0 []).getD 1 1 = 80 / 81900 := by
  refine ⟨fun buffer nr ns r s hr hs =>
    ⟨(process_buffer_entry buffer nr ns r s hr hs [] 0).1,
     (process_buffer_entry buffer nr ns r s hr hs [] 0).2⟩, ?_, ?_, ?_⟩
  · rw [(process_buffer_entry scenario_buffer 2 256 0 0 (by decide) (by decide) [] 1).1,
      scenario_buffer_head]
    norm_num
  · rw [(process_buffer_entry scenario_buffer 2 256 0 1 (by decide) (by decide) [] 1).2,
      scenario_buffer_head]
    norm_num
  · rw [(process_buffer_entry scenario_buffer 2 256 0 1 (by decide) (by decide) [] 1).1,
      scenario_buffer_head]
    norm_num

/-- Witness for C3 (amended): the placement rule applied to the scenario
buffer at record 0, sample 1 of channel A. -/
theorem process_buffer_placement_witness :
    ((process_buffer scenario_buffer 1 2).1.getD 0 []).getD 1 0
      = signal_to_volt (scenario_buffer.getD ((0 * 2 + 1) * 2) 0) :=
  (process_buffer_placement.1 scenario_buffer 1 2 0 1 (by decide) (by decide)).1

/-- Claim C6: a result obtained with `copy = true` is an independent snapshot:
after a later buffer delivery and conversion call, reading it still yields
what it held when it was returned.  A result obtained with `copy = false`
aliases the persistent session channel buffers: reading it after the later
delivery and conversion yields exactly the conversion of the *latest* raw
buffer, and therefore differs from the value it had when returned whenever
the two conversions differ. -/
theorem copy_snapshot_view_semantics (st : AcqState) (b d : List ℚ) (c2 : Bool)
    (hb : st.buffer = some b) (hrec : 0 < st.records_per_buffer)
    (hlen : b.length = st.samples_per_record * st.records_per_buffer * 2)
    (hd : d.length = b.length) :
    (∃ st1 a1 b1 st2 st3 r3,
      numpy_get_alldata_from_buffer_in_volt st true = some (st1, .copied a1 b1) ∧
      handle_buffer st1 d none = some st2 ∧
      numpy_get_alldata_from_buffer_in_volt st2 c2 = some (st3, r3) ∧
      readResult st3 (.copied a1 b1) = readResult st1 (.copied a1 b1)) ∧
    (∃ st1 st2 st3 r3,
      numpy_get_alldata_from_buffer_in_volt st false = some (st1, .view) ∧
      handle_buffer st1 d none = some st2 ∧
      numpy_get_alldata_from_buffer_in_volt st2 c2 = some (st3, r3) ∧
      readResult st3 .view = (st3.cha_A_buffer, st3.cha_B_buffer) ∧
      numpy_convert b st.records_per_buffer st.samples_per_record
        = some (readResult st1 .view) ∧
      numpy_convert (List.zipWith (· + ·) b d) st.records_per_buffer
          st.samples_per_record
        = some (readResult st3 .view) ∧
      (process_buffer (List.zipWith (· + ·) b d) st.records_per_buffer
            st.samples_per_record
          ≠ process_buffer b st.records_per_buffer st.samples_per_record →
        readResult st3 .view ≠ readResult st1 .view)) := by
  obtain ⟨sp, rp, bp, buf, cA, cB⟩ := st
  dsimp only at hb hrec hlen ⊢
  subst hb
  have hc := numpy_convert_some b rp sp hrec hlen
  have hz : (List.zipWith (· + ·) b d).length = sp * rp * 2 := by
    rw [List.length_zipWith, hd, min_self, hlen]
  have hc2 := numpy_convert_some (List.zipWith (· + ·) b d) rp sp hrec hz
  constructor
  · refine ⟨⟨sp, rp, bp, some b,
        (process_buffer b rp sp).1, (process_buffer b rp sp).2⟩,
      (process_buffer b rp sp).1, (process_buffer b rp sp).2,
      ⟨sp, rp, bp, some (List.zipWith (· + ·) b d),
        (process_buffer b rp sp).1, (process_buffer b rp sp).2⟩,
      ⟨sp, rp, bp, some (List.zipWith (· + ·) b d),
        (process_buffer (List.zipWith (· + ·) b d) rp sp).1,
        (process_buffer (List.zipWith (· + ·) b d) rp sp).2⟩,
      if c2 then GetResult.copied (process_buffer (List.zipWith (· + ·) b d) rp sp).1
        (process_buffer (List.zipWith (· + ·) b d) rp sp).2 else GetResult.view,
      ?_, rfl, ?_, rfl⟩
    · simp [numpy_get_alldata_from_buffer_in_volt, hc]
    · simp [numpy_get_alldata_from_buffer_in_volt, hc2]
  · refine ⟨⟨sp, rp, bp, some b,
        (process_buffer b rp sp).1, (process_buffer b rp sp).2⟩,
      ⟨sp, rp, bp, some (List.zipWith (· + ·) b d),
        (process_buffer b rp sp).1, (process_buffer b rp sp).2⟩,
      ⟨sp, rp, bp, some (List.zipWith (· + ·) b d),
        (process_buffer (List.zipWith (· + ·) b d) rp sp).1,
        (process_buffer (List.zipWith (· + ·) b d) rp sp).2⟩,
      if c2 then GetResult.copied (process_buffer (List.zipWith (· + ·) b d) rp sp).1
        (process_buffer (List.zipWith (· + ·) b d) rp sp).2 else GetResult.view,
      ?_, rfl, ?_, rfl, hc, hc2, ?_⟩
    · simp [numpy_get_alldata_from_buffer_in_volt, hc]
    · simp [numpy_get_alldata_from_buffer_in_volt, hc2]
    · intro hne hcontra
      exact hne (by simpa [readResult] using hcontra)

/-- Witness for C6: a one-record one-sample session, with the buffer
`[81900, 163800]` delivered between the two conversion calls. -/
theorem copy_snapshot_view_semantics_witness :
    (∃ st1 a1 b1 st2 st3 r3,
      numpy_get_alldata_from_buffer_in_volt (pre_start_capture 1 1 1) true
        = some (st1, .copied a1 b1) ∧
      handle_buffer st1 [81900, 163800] none = some st2 ∧
      numpy_get_alldata_from_buffer_in_volt st2 true = some (st3, r3) ∧
      readResult st3 (.copied a1 b1) = readResult st1 (.copied a1 b1)) ∧
    (∃ st1 st2 st3 r3,
      numpy_get_alldata_from_buffer_in_volt (pre_start_capture 1 1 1) false
        = some (st1, .view) ∧
      handle_buffer st1 [81900, 163800] none = some st2 ∧
      numpy_get_alldata_from_buffer_in_volt st2 true = some (st3, r3) ∧
      readResult st3 .view = (st3.cha_A_buffer, st3.cha_B_buffer) ∧
      numpy_convert (List.replicate 2 0)
          (pre_start_capture 1 1 1).records_per_buffer
          (pre_start_capture 1 1 1).samples_per_record
        = some (readResult st1 .view) ∧
      numpy_convert (List.zipWith (· + ·) (List.replicate 2 0) [81900, 163800])
          (pre_start_capture 1 1 1).records_per_buffer
          (pre_start_capture 1 1 1).samples_per_record
        = some (readResult st3 .view) ∧
      (process_buffer (List.zipWith (· + ·) (List.replicate 2 0) [81900, 163800])
            (pre_start_capture 1 1 1).records_per_buffer
            (pre_start_capture 1 1 1).samples_per_record
          ≠ process_buffer (List.replicate 2 0)
            (pre_start_capture 1 1 1).records_per_buffer
            (pre_start_capture 1 1 1).samples_per_record →
        readResult st3 .view ≠ readResult st1 .view)) :=
  copy_snapshot_view_semantics (pre_start_capture 1 1 1) (List.replicate 2 0)
    [81900, 163800] true rfl (by decide) (by decide) (by decide)

/-- Claim C1, a code bug: with supported firmware and register value
`2^27 = 0x08000000` (bit 27 set, bit 26 clear), `_get_trigger_holdoff`
returns `True` even though bit 26 is clear: its last line
`bool(bin(output)[-27])` takes the truth value of a one-character *string*
(`"0"` here), which is always `True` for any register value of at least 27
binary digits.  The claim (and the comment in the code itself, "we want to check if
the 26h bit (zero indexed) is high or not") requires `False` here. -/
theorem get_trigger_holdoff_truthiness_bug :
    _get_trigger_holdoff (some "30.04") (2 ^ 27) = .ok true ∧
    Nat.testBit (2 ^ 27) 26 = false := by
  constructor <;> decide

/-- Counterexample to C7: a malformed firmware version string does not make
`_get_trigger_holdoff` return `False`: `version.parse` raises on it
(`InvalidVersion` in `packaging` ≥ 22), and the exception propagates. -/
theorem get_trigger_holdoff_malformed_raises :
    _get_trigger_holdoff (some "garbage") 0 = .error .invalidVersion := by decide

/-- Claim C7, amended: whenever the firmware version is absent (not a string)
or parses below "30.04", `_get_trigger_holdoff` returns `False`, and its
result does not depend on the register value (no register read is needed);
a malformed version string instead raises a version-parse error (see the
counterexample). -/
theorem get_trigger_holdoff_gate (firmware : Option String) (reg reg2 : Nat)
    (h : firmware = none ∨ ∃ s comps, firmware = some s ∧
        parseVersion s = some comps ∧ verLt comps [30, 4] = true) :
    _get_trigger_holdoff firmware reg = .ok false ∧
    _get_trigger_holdoff firmware reg = _get_trigger_holdoff firmware reg2 := by
  have hmin : parseVersion trigger_holdoff_min_fw_version = some [30, 4] := by decide
  obtain rfl | ⟨s, comps, rfl, hp, hlt⟩ := h
  · exact ⟨rfl, rfl⟩
  · have hfw : fwParseBelow (some s) trigger_holdoff_min_fw_version = .ok true := by
      simp only [fwParseBelow]
      rw [hp, hmin]
      exact congrArg Except.ok hlt
    unfold _get_trigger_holdoff
    rw [hfw]
    exact ⟨rfl, rfl⟩

/-- Witness for C7 (amended): firmware "29.10" (below the minimum
"30.04"), register values 5 and 999999999. -/
theorem get_trigger_holdoff_gate_witness :
    _get_trigger_holdoff (some "29.10") 5 = .ok false ∧
    _get_trigger_holdoff (some "29.10") 5
      = _get_trigger_holdoff (some "29.10") 999999999 :=
  get_trigger_holdoff_gate (some "29.10") 5 999999999
    (Or.inr ⟨"29.10", [29, 10], rfl, by decide, by decide⟩)

/-- Claim C8: `_set_trigger_holdoff` raises the unsupported-firmware
`RuntimeError` — carrying the required minimum version and the actual
firmware value — exactly when the firmware version is absent or parses
below "30.04"; in that case its result does not depend on the register
value (no register read or write happens, the state is unchanged); and on
supported firmware it never silently no-ops: it always writes a value. -/
theorem set_trigger_holdoff_firmware_gate (firmware : Option String)
    (value : Bool) (reg : Nat) :
    ((_set_trigger_holdoff firmware value reg
        = .error (.unsupportedFirmware trigger_holdoff_min_fw_version firmware))
      ↔ (firmware = none ∨ ∃ s comps, firmware = some s ∧
          parseVersion s = some comps ∧ verLt comps [30, 4] = true)) ∧
    (∀ reg2, (firmware = none ∨ ∃ s comps, firmware = some s ∧
          parseVersion s = some comps ∧ verLt comps [30, 4] = true) →
      _set_trigger_holdoff firmware value reg
        = _set_trigger_holdoff firmware value reg2) ∧
    (∀ s comps, firmware = some s → parseVersion s = some comps →
      verLt comps [30, 4] = false →
      ∃ w, _set_trigger_holdoff firmware value reg = .ok w) := by
  have hmin : parseVersion trigger_holdoff_min_fw_version = some [30, 4] := by decide
  rcases firmware with _ | s
  · refine ⟨⟨fun _ => Or.inl rfl, fun _ => rfl⟩, fun reg2 _ => rfl, ?_⟩
    intro s comps hs
    exact absurd hs (by simp)
  · rcases hps : parseVersion s with _ | comps
    · have hset : ∀ r, _set_trigger_holdoff (some s) value r
          = .error .invalidVersion := by
        intro r
        simp only [_set_trigger_holdoff, fwParseBelow]
        rw [hps, hmin]
      refine ⟨⟨fun hcontra => ?_, fun h => ?_⟩, fun reg2 _ => ?_, ?_⟩
      · rw [hset reg] at hcontra
        exact absurd hcontra (by simp)
      · rcases h with h | ⟨s2, comps2, hs2, hp2, _⟩
        · exact absurd h (by simp)
        · rw [show s2 = s from (Option.some_injective _ hs2).symm, hps] at hp2
          exact absurd hp2 (by simp)
      · rw [hset reg, hset reg2]
      · intro s2 comps2 hs2 hp2 _
        rw [show s2 = s from (Option.some_injective _ hs2).symm, hps] at hp2
        exact absurd hp2 (by simp)
    · have hfw : fwParseBelow (some s) trigger_holdoff_min_fw_version
          = .ok (verLt comps [30, 4]) := by
        simp only [fwParseBelow]
        rw [hps, hmin]
      rcases hvl : verLt comps [30, 4]
      · have hset : ∀ r, _set_trigger_holdoff (some s) value r
            = .ok (if value then r ||| 1 <<< 26
                   else r &&& np_uint32_not (1 <<< 26)) := by
          intro r
          simp only [_set_trigger_holdoff]
          rw [hfw, hvl]
          rcases value <;> rfl
        refine ⟨⟨fun hcontra => ?_, fun h => ?_⟩, fun reg2 h => ?_, ?_⟩
        · rw [hset reg] at hcontra
          exact absurd hcontra (by simp)
        · rcases h with h | ⟨s2, comps2, hs2, hp2, hl2⟩
          · exact absurd h (by simp)
          · rw [show s2 = s from (Option.some_injective _ hs2).symm, hps] at hp2
            rw [show comps2 = comps from (Option.some_injective _ hp2.symm)] at hl2
            rw [hvl] at hl2
            exact absurd hl2 (by simp)
        · rcases h with h | ⟨s2, comps2, hs2, hp2, hl2⟩
          · exact absurd h (by simp)
          · rw [show s2 = s from (Option.some_injective _ hs2).symm, hps] at hp2
            rw [show comps2 = comps from (Option.some_injective _ hp2.symm)] at hl2
            rw [hvl] at hl2
            exact absurd hl2 (by simp)
        · intro s2 comps2 hs2 hp2 hl2
          exact ⟨_, hset reg⟩
      · have hset : ∀ r, _set_trigger_holdoff (some s) value r
            = .error (.unsupportedFirmware trigger_holdoff_min_fw_version (some s)) := by
          intro r
          simp only [_set_trigger_holdoff]
          rw [hfw, hvl]
        refine ⟨⟨fun _ => Or.inr ⟨s, comps, rfl, hps, hvl⟩, fun _ => hset reg⟩,
          fun reg2 _ => ?_, ?_⟩
        · rw [hset reg, hset reg2]
        · intro s2 comps2 hs2 hp2 hl2
          rw [show s2 = s from (Option.some_injective _ hs2).symm, hps] at hp2
          rw [show comps2 = comps from (Option.some_injective _ hp2.symm)] at hl2
          rw [hvl] at hl2
          exact absurd hl2 (by simp)

/-- Witness for C8: firmware "29.10" (below the minimum), `value = true`,
register value 7: the unsupported-firmware error carrying "30.04" and
"29.10" is raised. -/
theorem set_trigger_holdoff_firmware_gate_witness :
    _set_trigger_holdoff (some "29.10") true 7
      = .error (.unsupportedFirmware trigger_holdoff_min_fw_version (some "29.10")) :=
  (set_trigger_holdoff_firmware_gate (some "29.10") true 7).1.mpr
    (Or.inr ⟨"29.10", [29, 10], rfl, by decide, by decide⟩)

/-- Claim C9: on supported firmware, `_set_trigger_holdoff true` writes back
exactly `v ||| (1 <<< 26)` and `_set_trigger_holdoff false` writes back
exactly `v &&& ~(1 <<< 26)` in 32-bit unsigned arithmetic
(`~(1 <<< 26) = 2^32 - 1 - 2^26 = 0xFBFFFFFF`); every bit other than bit 26
is unchanged, and bit 26 of the written value equals the requested flag; in
particular enabling on register value `0x00000000` writes `0x04000000`
(`= 67108864`) and disabling on `0x04000000` writes `0x00000000`. -/
theorem set_trigger_holdoff_bitmask (firmware : String) (v : Nat)
    (hv : v < 2 ^ 32)
    (hfw : fwParseBelow (some firmware) trigger_holdoff_min_fw_version
      = .ok false) :
    _set_trigger_holdoff (some firmware) true v = .ok (v ||| 1 <<< 26) ∧
    _set_trigger_holdoff (some firmware) false v
      = .ok (v &&& (2 ^ 32 - 1 - 2 ^ 26)) ∧
    (∀ i, i ≠ 26 → (v ||| 1 <<< 26).testBit i = v.testBit i) ∧
    (v ||| 1 <<< 26).testBit 26 = true ∧
    (∀ i, i ≠ 26 → (v &&& (2 ^ 32 - 1 - 2 ^ 26)).testBit i = v.testBit i) ∧
    (v &&& (2 ^ 32 - 1 - 2 ^ 26)).testBit 26 = false ∧
    _set_trigger_holdoff (some "30.04") true 0 = .ok 67108864 ∧
    _set_trigger_holdoff (some "30.04") false 67108864 = .ok 0 := by
  have h26 : (1 <<< 26 : Nat) = 2 ^ 26 := by decide
  have hmask : (2 ^ 32 - 1 - 2 ^ 26 : Nat) = (2 ^ 32 - 1) ^^^ (2 ^ 26) := by decide
  have hmasknot : np_uint32_not (1 <<< 26) = 2 ^ 32 - 1 - 2 ^ 26 := by decide
  have hbit26 : ∀ i, i ≠ 26 → Nat.testBit (2 ^ 26) i = false := by
    intro i hi
    rw [Nat.testBit_two_pow]
    exact decide_eq_false fun hc => hi hc.symm
  refine ⟨?_, ?_, ?_, ?_, ?_, ?_, by decide, by decide⟩
  · simp only [_set_trigger_holdoff]
    rw [hfw]
    rfl
  · simp only [_set_trigger_holdoff]
    rw [hfw]
    rw [show (Except.ok false : Except PyError Bool) = .ok false from rfl]
    rw [show (match (Except.ok false : Except PyError Bool) with
        | Except.error e => (Except.error e : Except PyError Nat)
        | .ok true =>
          .error (.unsupportedFirmware trigger_holdoff_min_fw_version (some firmware))
        | .ok false => if false = true then .ok (v ||| 1 <<< 26)
            else .ok (v &&& np_uint32_not (1 <<< 26)))
        = Except.ok (v &&& np_uint32_not (1 <<< 26)) from rfl, hmasknot]
  · intro i hi
    rw [h26, Nat.testBit_lor, hbit26 i hi, Bool.or_false]
  · rw [h26, Nat.testBit_lor, Nat.testBit_two_pow]
    simp
  · intro i hi
    rcases lt_or_ge i 32 with h32 | h32
    · rw [hmask, Nat.testBit_land, Nat.testBit_xor, Nat.testBit_two_pow_sub_one,
        Nat.testBit_two_pow, decide_eq_true h32,
        decide_eq_false fun hc => hi hc.symm]
      simp
    · have hvi : v.testBit i = false :=
        Nat.testBit_lt_two_pow
          (lt_of_lt_of_le hv (Nat.pow_le_pow_right (by norm_num) h32))
      rw [Nat.testBit_land, hvi, Bool.false_and]
  · rw [hmask, Nat.testBit_land, Nat.testBit_xor, Nat.testBit_two_pow_sub_one,
      Nat.testBit_two_pow]
    simp

/-- Witness for C9: firmware "30.04" (exactly the minimum, supported)
and register value 3. -/
theorem set_trigger_holdoff_bitmask_witness :
    _set_trigger_holdoff (some "30.04") true 3 = .ok (3 ||| 1 <<< 26) ∧
    _set_trigger_holdoff (some "30.04") false 3
      = .ok (3 &&& (2 ^ 32 - 1 - 2 ^ 26)) ∧
    (∀ i, i ≠ 26 → ((3 : Nat) ||| 1 <<< 26).testBit i = (3 : Nat).testBit i) ∧
    ((3 : Nat) ||| 1 <<< 26).testBit 26 = true ∧
    (∀ i, i ≠ 26 → ((3 : Nat) &&& (2 ^ 32 - 1 - 2 ^ 26)).testBit i
      = (3 : Nat).testBit i) ∧
    ((3 : Nat) &&& (2 ^ 32 - 1 - 2 ^ 26)).testBit 26 = false ∧
    _set_trigger_holdoff (some "30.04") true 0 = .ok 67108864 ∧
    _set_trigger_holdoff (some "30.04") false 67108864 = .ok 0 :=
  set_trigger_holdoff_bitmask "30.04" 3 (by decide) (by decide)

end ATS9371
